import Mathlib

/-!
Verification of the imhotep optimized FTGS per-shard core against its
natural-language specification.

Sources embedded:
- src/imhotep-server/src/main/native/optimized_ftgs/optimized/src/local_session.c
  (run_tgs_pass, allocate_grp_stats, session_init, worker_start_field,
  worker_end_field, worker_end_stream)
- src/imhotep-server/src/main/native/optimized_ftgs/cpp/include/btree/int.hpp
  (the Int of int64_t key-codec view)

External calls (write_field_start, write_field_end, write_stream_end,
tgs_execute_pass) live outside the provided sources; they are modelled as
oracle parameters: a function from the stream state to a result code and the
stream state after the call.  The ftgs_outstream array owned by a worker is
modelled as a total function from Int to the stream state, reflecting raw C
pointer indexing with an int index and no bounds checking.  Helper buffer
factories absent from the sources (unpacked_table_create,
unpacked_table_copy_layout, circular_buffer_int_alloc) are modelled from the
spec, as marked on each definition.
-/

/-- Error slot contents as the embedded code uses them: a numeric code plus
the message buffer (worker error code and worker error str). -/
structure StreamErr where
  code : Int
  str : String
deriving DecidableEq, Repr

/-- The part of the ftgs_outstream struct the embedded code touches: the
socket err field, the one-shot captured transport error. -/
structure FtgsOutstream where
  sockErr : StreamErr
deriving DecidableEq, Repr

/-- The worker_desc struct: stream count, the out_streams array (modelled as
a total function over C int indices), and the shared error slot. -/
structure WorkerDesc where
  num_streams : Int
  out_streams : Int → FtgsOutstream
  error : StreamErr

/-- Write back a stream at an index of the out_streams array. -/
def updStream (f : Int → FtgsOutstream) (i : Int) (s : FtgsOutstream) :
    Int → FtgsOutstream :=
  fun j => if j = i then s else f j

/-- EBADF from errno.h on Linux. -/
def EBADF : Int := 9

/-- Boolean test: needle is a leading segment of hay. -/
def leadsList (needle hay : List Char) : Bool :=
  match needle, hay with
  | [], _ => true
  | _ :: _, [] => false
  | n :: ns, h :: hs => n == h && leadsList ns hs

/-- Boolean test: needle occurs contiguously somewhere inside hay. -/
def subList (needle hay : List Char) : Bool :=
  match hay with
  | [] => needle.isEmpty
  | _ :: hs => leadsList needle hay || subList needle hs

/-- The message hay contains the text needle. -/
def strContains (needle hay : String) : Bool :=
  subList needle.toList hay.toList

/-- An oracle for a stream-level call that takes no extra arguments
(write_field_end, write_stream_end, and tgs_execute_pass as seen from the
bound stream): result code plus the stream state after the call. -/
abbrev StreamOp := FtgsOutstream → Int × FtgsOutstream

/-- Lines 121-127 of local_session.c, the post-validation part of
worker_start_field: call write_field_start (the oracle op) on the stream at
stream_num; on a non-zero result copy the captured stream error into the
worker slot, zero the error code held by the stream, and return the result;
otherwise return 0. -/
def start_field_body (w : WorkerDesc) (field_name : String) (len : Int)
    (term_type : Int) (stream_num : Int)
    (op : FtgsOutstream → String → Int → Int → Int × FtgsOutstream) :
    Int × WorkerDesc :=
  let res := op (w.out_streams stream_num) field_name len term_type
  if res.1 ≠ 0 then
    (res.1, { w with
      error := res.2.sockErr,
      out_streams := updStream w.out_streams stream_num
        { res.2 with sockErr := { res.2.sockErr with code := 0 } } })
  else
    (0, { w with out_streams := updStream w.out_streams stream_num res.2 })

/-- Embedding of worker_start_field from local_session.c: validate the index
(reject exactly when stream_num is at least num_streams, formatting both
numbers into the message with snprintf), else run the delegating body. -/
def worker_start_field (w : WorkerDesc) (field_name : String) (len : Int)
    (term_type : Int) (stream_num : Int)
    (op : FtgsOutstream → String → Int → Int → Int × FtgsOutstream) :
    Int × WorkerDesc :=
  if w.num_streams ≤ stream_num then
    (-1, { w with error :=
      { code := EBADF,
        str := "Invalid socket number. stream_num: " ++ toString stream_num ++
               " num_streams: " ++ toString w.num_streams } })
  else
    start_field_body w field_name len term_type stream_num op

/-- Lines 139-145 of local_session.c, the post-validation part of
worker_end_field: call write_field_end on the stream at stream_num; only a
result of exactly -1 is treated as failure (copy the captured stream error to
the worker slot, zero the error code held by the stream, return -1); any
other result returns 0. -/
def end_field_body (w : WorkerDesc) (stream_num : Int) (op : StreamOp) :
    Int × WorkerDesc :=
  let res := op (w.out_streams stream_num)
  if res.1 = -1 then
    (-1, { w with
      error := res.2.sockErr,
      out_streams := updStream w.out_streams stream_num
        { res.2 with sockErr := { res.2.sockErr with code := 0 } } })
  else
    (0, { w with out_streams := updStream w.out_streams stream_num res.2 })

/-- Embedding of worker_end_field from local_session.c: validate the index
(fixed message on rejection), else run the delegating body. -/
def worker_end_field (w : WorkerDesc) (stream_num : Int) (op : StreamOp) :
    Int × WorkerDesc :=
  if w.num_streams ≤ stream_num then
    (-1, { w with error := { code := EBADF, str := "Invalid socket number." } })
  else
    end_field_body w stream_num op

/-- Lines 157-163 of local_session.c, the post-validation part of
worker_end_stream: identical in shape to end_field_body, calling
write_stream_end. -/
def end_stream_body (w : WorkerDesc) (stream_num : Int) (op : StreamOp) :
    Int × WorkerDesc :=
  let res := op (w.out_streams stream_num)
  if res.1 = -1 then
    (-1, { w with
      error := res.2.sockErr,
      out_streams := updStream w.out_streams stream_num
        { res.2 with sockErr := { res.2.sockErr with code := 0 } } })
  else
    (0, { w with out_streams := updStream w.out_streams stream_num res.2 })

/-- Embedding of worker_end_stream from local_session.c: validate the index
(fixed message on rejection), else run the delegating body. -/
def worker_end_stream (w : WorkerDesc) (stream_num : Int) (op : StreamOp) :
    Int × WorkerDesc :=
  if w.num_streams ≤ stream_num then
    (-1, { w with error := { code := EBADF, str := "Invalid socket number." } })
  else
    end_stream_body w stream_num op

/-- The calls run_tgs_pass makes on its ephemeral resources, in order;
recorded as a trace so that lifecycle claims are statable. -/
inductive TgsEvent where
  | termInit
  | tgsInit
  | tgsExecutePass
  | copyStreamErr
  | tgsDestroy
  | termDestroy
deriving DecidableEq, Repr

/-- Embedding of run_tgs_pass from local_session.c.  The term construction
arguments and the shard list only feed the external term_init, tgs_init and
tgs_execute_pass; the executor is the oracle execPass, which returns the pass
result together with the state of the bound stream after the pass (the C
code reaches that state through the stream pointer stored in the pass
descriptor, which points at the out_streams entry at stream_num).  The
function resolves its stream as out_streams at stream_num with no index
validation; on a non-zero pass result whose stream error code is non-zero it
copies the captured stream error into the worker slot (without touching the
error the stream holds); it then destroys the pass descriptor and the term
and returns the pass result.  Returns the pass result, the worker state
after the call, and the trace of lifecycle calls made. -/
def run_tgs_pass (w : WorkerDesc) (stream_num : Int) (execPass : StreamOp) :
    Int × WorkerDesc × List TgsEvent :=
  let res := execPass (w.out_streams stream_num)
  let w1 := { w with out_streams := updStream w.out_streams stream_num res.2 }
  let w2 := if res.1 ≠ 0 ∧ res.2.sockErr.code ≠ 0 then
      { w1 with error := res.2.sockErr }
    else w1
  (res.1, w2,
    [TgsEvent.termInit, TgsEvent.tgsInit, TgsEvent.tgsExecutePass] ++
      (if res.1 ≠ 0 ∧ res.2.sockErr.code ≠ 0 then [TgsEvent.copyStreamErr]
       else []) ++
      [TgsEvent.tgsDestroy, TgsEvent.termDestroy])

/-- A read-only Packed Table in the only role the embedded code uses it for:
a column-layout template (one entry per statistic column, carrying the
column width). -/
structure PackedTable where
  layout : List Nat
deriving DecidableEq, Repr

/-- Mutable per-group accumulation buffer: a column layout, a row count and
the cell matrix. -/
structure UnpackedTable where
  layout : List Nat
  n_rows : Nat
  cells : List (List Int)
deriving DecidableEq, Repr

/-- Modelled from the spec: unpacked_table_create is defined outside the
provided sources; spec section 4.2 specifies an Unpacked Table with the
requested number of rows, the same column layout as the sample Packed Table,
and every cell zero-initialized. -/
def unpacked_table_create (sample : PackedTable) (num_rows : Nat) :
    UnpackedTable :=
  { layout := sample.layout,
    n_rows := num_rows,
    cells := List.replicate num_rows (List.replicate sample.layout.length 0) }

/-- Modelled from the spec: unpacked_table_copy_layout is defined outside
the provided sources; spec section 4.2 specifies a Scratch Buffer with the
same column layout and a fixed small row capacity, zero-initialized. -/
def unpacked_table_copy_layout (t : UnpackedTable) (capacity : Nat) :
    UnpackedTable :=
  { layout := t.layout,
    n_rows := capacity,
    cells := List.replicate capacity (List.replicate t.layout.length 0) }

/-- Fixed-capacity FIFO of pending group ids. -/
structure CircularBufferInt where
  capacity : Nat
  items : List Int
deriving DecidableEq, Repr

/-- Modelled from the spec: circular_buffer_int_alloc is defined outside the
provided sources; spec section 4.3 specifies allocation of the Ring Buffer
at a fixed capacity, initially empty. -/
def circular_buffer_int_alloc (size : Nat) : CircularBufferInt :=
  { capacity := size, items := [] }

/-- CIRC_BUFFER_SIZE from local_session.c. -/
def CIRC_BUFFER_SIZE : Nat := 64

/-- PREFETCH_BUFFER_SIZE from local_session.c. -/
def PREFETCH_BUFFER_SIZE : Nat := 64

/-- The session_desc struct as the embedded code populates it. -/
structure SessionDesc where
  num_groups : Nat
  num_stats : Nat
  only_binary_metrics : Int
  grp_stats : UnpackedTable
  temp_buf : UnpackedTable
  grp_buf : CircularBufferInt
  nz_grps_buf : List Nat
deriving DecidableEq, Repr

/-- Embedding of allocate_grp_stats from local_session.c: create the
group-stats buffer with num_groups rows from the metric layout, and the
scratch buffer (temp_buf) with the same layout at the prefetch capacity.
Returned as the pair (grp_stats, temp_buf); the C code stores temp_buf into
the session and returns grp_stats. -/
def allocate_grp_stats (num_groups : Nat) (metric_desc : PackedTable) :
    UnpackedTable × UnpackedTable :=
  let grp_stats := unpacked_table_create metric_desc num_groups
  (grp_stats, unpacked_table_copy_layout grp_stats PREFETCH_BUFFER_SIZE)

/-- Embedding of session_init from local_session.c: store the counts and
flag, build the accumulation buffers, allocate the ring buffer and the
zero-initialized dirty-group array (a calloc of n_groups uint32 cells). -/
def session_init (n_groups n_stats : Nat) (only_binary_metrics : Int)
    (sample_table : PackedTable) : SessionDesc :=
  let bufs := allocate_grp_stats n_groups sample_table
  { num_groups := n_groups,
    num_stats := n_stats,
    only_binary_metrics := only_binary_metrics,
    grp_stats := bufs.1,
    temp_buf := bufs.2,
    grp_buf := circular_buffer_int_alloc CIRC_BUFFER_SIZE,
    nz_grps_buf := List.replicate n_groups 0 }

/-- Little-endian base-256 value of a byte region. -/
def decodeU64 (bytes : List Nat) : Nat :=
  bytes.foldr (fun b acc => b + 256 * acc) 0

/-- Reinterpret an unsigned 64-bit value as a signed one, in the way a
native load of a stored 64-bit twos-complement pattern does. -/
def toSigned64 (u : Nat) : Int :=
  if u < 2 ^ 63 then (u : Int) else (u : Int) - 2 ^ 64

/-- The value read by the call operator of Int of int64_t in btree/int.hpp:
reinterpret the 8 bytes at the view start as a native (little-endian,
twos-complement) int64_t. -/
def decodeI64 (bytes : List Nat) : Int :=
  toSigned64 (decodeU64 bytes)

/-- Serialize a signed 64-bit value to its native byte region: the
little-endian base-256 digits of the value reduced modulo 2 to the 64. -/
def encodeI64 (a : Int) : List Nat :=
  let u := (a % 2 ^ 64).toNat
  [u % 256, u / 256 % 256, u / 256 ^ 2 % 256, u / 256 ^ 3 % 256,
   u / 256 ^ 4 % 256, u / 256 ^ 5 % 256, u / 256 ^ 6 % 256, u / 256 ^ 7 % 256]

/-- Embedding of imhotep btree Int of int64_t (the Long typedef): a view
over an externally-owned byte region. -/
structure BtreeLong where
  _begin : List Nat
deriving DecidableEq, Repr

/-- The call operator of the view: the decoded scalar value. -/
def BtreeLong.val (v : BtreeLong) : Int :=
  decodeI64 v._begin

/-- The less-than operator of the view: compare the decoded values as
signed integers. -/
def BtreeLong.lt (a b : BtreeLong) : Bool :=
  a.val < b.val

/-- The length method of the view: sizeof int64_t. -/
def BtreeLong.byteLength (_ : BtreeLong) : Nat := 8

/-- A stream whose one-shot error slot is empty, as stream_init leaves it. -/
def demoStream : FtgsOutstream := { sockErr := { code := 0, str := "" } }

/-- A concrete worker with two open streams and an empty error slot, as
worker_init builds from two transport handles. -/
def demoWorker : WorkerDesc :=
  { num_streams := 2, out_streams := fun _ => demoStream,
    error := { code := 0, str := "" } }

/-- A field-start write oracle that succeeds and leaves the stream alone. -/
def opNoop4 : FtgsOutstream → String → Int → Int → Int × FtgsOutstream :=
  fun s _ _ _ => (0, s)

/-- A write oracle that succeeds and leaves the stream alone. -/
def opNoop : StreamOp := fun s => (0, s)

/-- A write oracle that succeeds after refreshing the stream error slot. -/
def opWriteOk : StreamOp :=
  fun s => (0, { s with sockErr := { code := 0, str := "ok" } })

/-- A field-start write oracle that fails with -1, capturing a transport
error on the stream. -/
def opFail4 : FtgsOutstream → String → Int → Int → Int × FtgsOutstream :=
  fun s _ _ _ =>
    (-1, { s with sockErr := { code := 5, str := "transport write failure" } })

/-- A write oracle that fails with -1, capturing a transport error on the
stream. -/
def opFail : StreamOp :=
  fun s =>
    (-1, { s with sockErr := { code := 5, str := "transport write failure" } })

/-- A write oracle that reports the non-zero result 2 (not -1), capturing a
transport error on the stream. -/
def opTwo : StreamOp :=
  fun s =>
    (2, { s with sockErr := { code := 9, str := "transport write failure" } })

/-- A pass executor that fails with result 1 after capturing a transport
error (code 7) on the bound stream. -/
def execFail7 : StreamOp :=
  fun s => (1, { s with sockErr := { code := 7, str := "transport write failure" } })

/-- A pass executor that fails with result 1 without capturing any error on
the bound stream. -/
def execFailNoErr : StreamOp := fun s => (1, s)

theorem leadsList_self_append (l q : List Char) : leadsList l (l ++ q) = true := by
  induction l with
  | nil => rfl
  | cons n ns ih => simp [leadsList, ih]

theorem subList_nil_needle (hay : List Char) : subList [] hay = true := by
  cases hay <;> simp [subList, leadsList, List.isEmpty]

theorem subList_append_middle (needle p q : List Char) :
    subList needle (p ++ (needle ++ q)) = true := by
  induction p with
  | nil =>
    cases needle with
    | nil => exact subList_nil_needle _
    | cons n ns =>
      have h := leadsList_self_append (n :: ns) q
      rw [List.cons_append] at h
      simp [subList, h]
  | cons x p' ih => simp [subList, ih]

theorem strContains_second (a n c d : String) :
    strContains n (a ++ n ++ c ++ d) = true := by
  unfold strContains
  have h : (a ++ n ++ c ++ d).toList =
      a.toList ++ (n.toList ++ (c.toList ++ d.toList)) := by
    simp [String.toList]
  rw [h]
  exact subList_append_middle n.toList a.toList (c.toList ++ d.toList)

theorem strContains_last (a n c d : String) :
    strContains d (a ++ n ++ c ++ d) = true := by
  unfold strContains
  have h : (a ++ n ++ c ++ d).toList =
      (a.toList ++ n.toList ++ c.toList) ++ (d.toList ++ []) := by
    simp [String.toList]
  rw [h]
  exact subList_append_middle d.toList (a.toList ++ n.toList ++ c.toList) []

theorem decodeU64_digits (u : Nat) (h : u < 2 ^ 64) :
    decodeU64 [u % 256, u / 256 % 256, u / 256 ^ 2 % 256, u / 256 ^ 3 % 256,
      u / 256 ^ 4 % 256, u / 256 ^ 5 % 256, u / 256 ^ 6 % 256,
      u / 256 ^ 7 % 256] = u := by
  simp [decodeU64]
  omega

theorem toSigned64_emod (a : Int) (h1 : -(2 ^ 63) ≤ a) (h2 : a < 2 ^ 63) :
    toSigned64 ((a % 2 ^ 64).toNat) = a := by
  unfold toSigned64
  split <;> omega

theorem decodeI64_encodeI64 (a : Int) (h1 : -(2 ^ 63) ≤ a) (h2 : a < 2 ^ 63) :
    decodeI64 (encodeI64 a) = a := by
  have hu : (a % 2 ^ 64).toNat < 2 ^ 64 := by omega
  unfold decodeI64 encodeI64
  rw [decodeU64_digits _ hu]
  exact toSigned64_emod a h1 h2

/-- C1 counterexample: at a concrete worker, a failing pass whose executor
captured error code 7 on the bound stream leaves that code on the stream
after run_tgs_pass returns (the error held by the stream is not cleared, so
it is not consumed one-shot as the claim states), and a failing pass whose
executor captured no stream error leaves the worker error slot empty, so not
every failing pass populates the worker slot. -/
theorem run_tgs_pass_error_not_consumed_cex :
    (run_tgs_pass demoWorker 0 execFail7).1 = 1 ∧
    (run_tgs_pass demoWorker 0 execFail7).2.1.error.code = 7 ∧
    ((run_tgs_pass demoWorker 0 execFail7).2.1.out_streams 0).sockErr.code = 7 ∧
    (run_tgs_pass demoWorker 0 execFailNoErr).1 = 1 ∧
    (run_tgs_pass demoWorker 0 execFailNoErr).2.1.error.code = 0 :=
  ⟨rfl, by decide, by decide, rfl, by decide⟩

/-- C1 (amended): if the pass reports a non-zero result and the bound
stream holds a captured error with a non-zero code, run_tgs_pass returns the
non-zero result and copies the captured stream error into the worker shared
error slot; the error held by the stream is left in place, not cleared. -/
theorem run_tgs_pass_error_propagation (w : WorkerDesc) (sn : Int)
    (execPass : StreamOp)
    (herr : (execPass (w.out_streams sn)).1 ≠ 0)
    (hcode : (execPass (w.out_streams sn)).2.sockErr.code ≠ 0) :
    (run_tgs_pass w sn execPass).1 = (execPass (w.out_streams sn)).1 ∧
    (run_tgs_pass w sn execPass).1 ≠ 0 ∧
    (run_tgs_pass w sn execPass).2.1.error = (execPass (w.out_streams sn)).2.sockErr ∧
    (run_tgs_pass w sn execPass).2.1.out_streams sn = (execPass (w.out_streams sn)).2 := by
  simp only [run_tgs_pass]
  rw [if_pos ⟨herr, hcode⟩]
  exact ⟨trivial, herr, rfl, by simp [updStream]⟩

/-- C1 witness: the amended propagation theorem applied at a concrete
worker and a concrete failing executor. -/
theorem run_tgs_pass_error_propagation_witness :
    ((execFail7 (demoWorker.out_streams 0)).1 ≠ 0 ∧
     (execFail7 (demoWorker.out_streams 0)).2.sockErr.code ≠ 0) ∧
    ((run_tgs_pass demoWorker 0 execFail7).1 = (execFail7 (demoWorker.out_streams 0)).1 ∧
     (run_tgs_pass demoWorker 0 execFail7).1 ≠ 0 ∧
     (run_tgs_pass demoWorker 0 execFail7).2.1.error = (execFail7 (demoWorker.out_streams 0)).2.sockErr ∧
     (run_tgs_pass demoWorker 0 execFail7).2.1.out_streams 0 = (execFail7 (demoWorker.out_streams 0)).2) :=
  ⟨⟨by decide, by decide⟩,
   run_tgs_pass_error_propagation demoWorker 0 execFail7 (by decide) (by decide)⟩

/-- C2: on every worker with num_streams equal to 2, worker_start_field at
stream index 5 returns -1 (a negative code), sets the worker error to the
invalid-index condition (EBADF) with a message containing both the offending
index 5 and the stream count 2, and leaves every stream untouched. -/
theorem worker_start_field_invalid_index_5_of_2 (w : WorkerDesc)
    (op : FtgsOutstream → String → Int → Int → Int × FtgsOutstream)
    (h : w.num_streams = 2) :
    (worker_start_field w "age" 3 0 5 op).1 = -1 ∧
    (worker_start_field w "age" 3 0 5 op).1 < 0 ∧
    (worker_start_field w "age" 3 0 5 op).2.error.code = EBADF ∧
    strContains "5" (worker_start_field w "age" 3 0 5 op).2.error.str = true ∧
    strContains "2" (worker_start_field w "age" 3 0 5 op).2.error.str = true ∧
    (worker_start_field w "age" 3 0 5 op).2.out_streams = w.out_streams := by
  have hguard : w.num_streams ≤ 5 := by omega
  unfold worker_start_field
  rw [if_pos hguard, h]
  refine ⟨rfl, by norm_num, rfl, ?_, ?_, rfl⟩
  · exact (by decide : strContains "5"
      ("Invalid socket number. stream_num: " ++ toString (5 : Int) ++
       " num_streams: " ++ toString (2 : Int)) = true)
  · exact (by decide : strContains "2"
      ("Invalid socket number. stream_num: " ++ toString (5 : Int) ++
       " num_streams: " ++ toString (2 : Int)) = true)

/-- C2 witness: the invalid-index theorem applied at a concrete two-stream
worker. -/
theorem worker_start_field_invalid_index_5_of_2_witness :
    demoWorker.num_streams = 2 ∧
    ((worker_start_field demoWorker "age" 3 0 5 opNoop4).1 = -1 ∧
     (worker_start_field demoWorker "age" 3 0 5 opNoop4).1 < 0 ∧
     (worker_start_field demoWorker "age" 3 0 5 opNoop4).2.error.code = EBADF ∧
     strContains "5" (worker_start_field demoWorker "age" 3 0 5 opNoop4).2.error.str = true ∧
     strContains "2" (worker_start_field demoWorker "age" 3 0 5 opNoop4).2.error.str = true ∧
     (worker_start_field demoWorker "age" 3 0 5 opNoop4).2.out_streams = demoWorker.out_streams) :=
  ⟨rfl, worker_start_field_invalid_index_5_of_2 demoWorker opNoop4 rfl⟩

/-- C3 counterexample: on a concrete two-stream worker rejecting index 5,
worker_end_field and worker_end_stream set the fixed error message that
contains neither the offending index 5 nor the stream count 2, refuting the
claim that all three wrappers put both numbers in the message. -/
theorem worker_end_field_msg_lacks_index_cex :
    demoWorker.num_streams = 2 ∧
    (worker_end_field demoWorker 5 opNoop).2.error.str = "Invalid socket number." ∧
    strContains "5" (worker_end_field demoWorker 5 opNoop).2.error.str = false ∧
    strContains "2" (worker_end_field demoWorker 5 opNoop).2.error.str = false ∧
    (worker_end_stream demoWorker 5 opNoop).2.error.str = "Invalid socket number." ∧
    strContains "5" (worker_end_stream demoWorker 5 opNoop).2.error.str = false :=
  ⟨rfl, rfl, by decide, by decide, rfl, by decide⟩

/-- C3 (amended): for every stream index at or beyond the stream count, all
three wrappers set the worker error to the invalid-index condition (EBADF)
and return -1 without touching any stream; only worker_start_field formats
the offending index and the stream count into the message, while
worker_end_field and worker_end_stream use a fixed message. -/
theorem worker_wrappers_invalid_index (w : WorkerDesc) (fn : String)
    (len tt sn : Int)
    (op1 : FtgsOutstream → String → Int → Int → Int × FtgsOutstream)
    (op2 op3 : StreamOp) (h : w.num_streams ≤ sn) :
    ((worker_start_field w fn len tt sn op1).1 = -1 ∧
     (worker_start_field w fn len tt sn op1).2.error.code = EBADF ∧
     strContains (toString sn) (worker_start_field w fn len tt sn op1).2.error.str = true ∧
     strContains (toString w.num_streams) (worker_start_field w fn len tt sn op1).2.error.str = true ∧
     (worker_start_field w fn len tt sn op1).2.out_streams = w.out_streams) ∧
    ((worker_end_field w sn op2).1 = -1 ∧
     (worker_end_field w sn op2).2.error.code = EBADF ∧
     (worker_end_field w sn op2).2.error.str = "Invalid socket number." ∧
     (worker_end_field w sn op2).2.out_streams = w.out_streams) ∧
    ((worker_end_stream w sn op3).1 = -1 ∧
     (worker_end_stream w sn op3).2.error.code = EBADF ∧
     (worker_end_stream w sn op3).2.error.str = "Invalid socket number." ∧
     (worker_end_stream w sn op3).2.out_streams = w.out_streams) := by
  unfold worker_start_field worker_end_field worker_end_stream
  rw [if_pos h, if_pos h, if_pos h]
  refine ⟨⟨rfl, rfl, ?_, ?_, rfl⟩, ⟨rfl, rfl, rfl, rfl⟩, ⟨rfl, rfl, rfl, rfl⟩⟩
  · exact strContains_second "Invalid socket number. stream_num: " (toString sn)
      " num_streams: " (toString w.num_streams)
  · exact strContains_last "Invalid socket number. stream_num: " (toString sn)
      " num_streams: " (toString w.num_streams)

/-- C3 witness: the amended invalid-index theorem applied at a concrete
two-stream worker and index 5. -/
theorem worker_wrappers_invalid_index_witness :
    demoWorker.num_streams ≤ 5 ∧
    (((worker_start_field demoWorker "f" 1 0 5 opNoop4).1 = -1 ∧
      (worker_start_field demoWorker "f" 1 0 5 opNoop4).2.error.code = EBADF ∧
      strContains (toString (5 : Int)) (worker_start_field demoWorker "f" 1 0 5 opNoop4).2.error.str = true ∧
      strContains (toString demoWorker.num_streams) (worker_start_field demoWorker "f" 1 0 5 opNoop4).2.error.str = true ∧
      (worker_start_field demoWorker "f" 1 0 5 opNoop4).2.out_streams = demoWorker.out_streams) ∧
     ((worker_end_field demoWorker 5 opNoop).1 = -1 ∧
      (worker_end_field demoWorker 5 opNoop).2.error.code = EBADF ∧
      (worker_end_field demoWorker 5 opNoop).2.error.str = "Invalid socket number." ∧
      (worker_end_field demoWorker 5 opNoop).2.out_streams = demoWorker.out_streams) ∧
     ((worker_end_stream demoWorker 5 opNoop).1 = -1 ∧
      (worker_end_stream demoWorker 5 opNoop).2.error.code = EBADF ∧
      (worker_end_stream demoWorker 5 opNoop).2.error.str = "Invalid socket number." ∧
      (worker_end_stream demoWorker 5 opNoop).2.out_streams = demoWorker.out_streams)) :=
  ⟨by decide, worker_wrappers_invalid_index demoWorker "f" 1 0 5 opNoop4 opNoop opNoop (by decide)⟩

/-- C4: when the delegated stream operation reports failure (the stream-op
failure code -1 of this repository), each of the three wrappers copies the
error captured on the stream into the single shared worker error slot, zeroes
the error code held by the stream (one-shot hand-off), and returns -1. -/
theorem worker_wrappers_error_handoff (w : WorkerDesc) (fn : String)
    (len tt sn : Int)
    (op1 : FtgsOutstream → String → Int → Int → Int × FtgsOutstream)
    (op2 op3 : StreamOp) (hval : sn < w.num_streams)
    (h1 : (op1 (w.out_streams sn) fn len tt).1 = -1)
    (h2 : (op2 (w.out_streams sn)).1 = -1)
    (h3 : (op3 (w.out_streams sn)).1 = -1) :
    ((worker_start_field w fn len tt sn op1).1 = -1 ∧
     (worker_start_field w fn len tt sn op1).2.error = (op1 (w.out_streams sn) fn len tt).2.sockErr ∧
     ((worker_start_field w fn len tt sn op1).2.out_streams sn).sockErr.code = 0) ∧
    ((worker_end_field w sn op2).1 = -1 ∧
     (worker_end_field w sn op2).2.error = (op2 (w.out_streams sn)).2.sockErr ∧
     ((worker_end_field w sn op2).2.out_streams sn).sockErr.code = 0) ∧
    ((worker_end_stream w sn op3).1 = -1 ∧
     (worker_end_stream w sn op3).2.error = (op3 (w.out_streams sn)).2.sockErr ∧
     ((worker_end_stream w sn op3).2.out_streams sn).sockErr.code = 0) := by
  have hlt : ¬ (w.num_streams ≤ sn) := by omega
  unfold worker_start_field worker_end_field worker_end_stream
  rw [if_neg hlt, if_neg hlt, if_neg hlt]
  simp only [start_field_body, end_field_body, end_stream_body]
  rw [if_pos (by rw [h1]; norm_num : (op1 (w.out_streams sn) fn len tt).1 ≠ 0),
      if_pos h2, if_pos h3]
  exact ⟨⟨h1, rfl, by simp [updStream]⟩, ⟨rfl, rfl, by simp [updStream]⟩,
    ⟨rfl, rfl, by simp [updStream]⟩⟩

/-- C4 witness: the hand-off theorem applied at a concrete worker with
concrete failing write oracles. -/
theorem worker_wrappers_error_handoff_witness :
    ((0 : Int) < demoWorker.num_streams ∧
     (opFail4 (demoWorker.out_streams 0) "f" 1 0).1 = -1 ∧
     (opFail (demoWorker.out_streams 0)).1 = -1) ∧
    (((worker_start_field demoWorker "f" 1 0 0 opFail4).1 = -1 ∧
      (worker_start_field demoWorker "f" 1 0 0 opFail4).2.error = (opFail4 (demoWorker.out_streams 0) "f" 1 0).2.sockErr ∧
      ((worker_start_field demoWorker "f" 1 0 0 opFail4).2.out_streams 0).sockErr.code = 0) ∧
     ((worker_end_field demoWorker 0 opFail).1 = -1 ∧
      (worker_end_field demoWorker 0 opFail).2.error = (opFail (demoWorker.out_streams 0)).2.sockErr ∧
      ((worker_end_field demoWorker 0 opFail).2.out_streams 0).sockErr.code = 0) ∧
     ((worker_end_stream demoWorker 0 opFail).1 = -1 ∧
      (worker_end_stream demoWorker 0 opFail).2.error = (opFail (demoWorker.out_streams 0)).2.sockErr ∧
      ((worker_end_stream demoWorker 0 opFail).2.out_streams 0).sockErr.code = 0)) :=
  ⟨⟨by decide, rfl, rfl⟩,
   worker_wrappers_error_handoff demoWorker "f" 1 0 0 opFail4 opFail opFail
     (by decide) rfl rfl rfl⟩

/-- C5 counterexample: on a concrete valid stream index, a write that
reports the non-zero result 2 (a failure by the claim, which reads any
non-zero result as failure) makes worker_end_field and worker_end_stream
return 0 with the worker error slot untouched, refuting the claim. -/
theorem worker_end_wrappers_nonzero_dropped_cex :
    (0 : Int) < demoWorker.num_streams ∧
    (opTwo (demoWorker.out_streams 0)).1 = 2 ∧ (2 : Int) ≠ 0 ∧
    (worker_end_field demoWorker 0 opTwo).1 = 0 ∧
    (worker_end_field demoWorker 0 opTwo).2.error = demoWorker.error ∧
    (worker_end_stream demoWorker 0 opTwo).1 = 0 ∧
    (worker_end_stream demoWorker 0 opTwo).2.error = demoWorker.error :=
  ⟨by decide, rfl, by decide, by decide, by decide, by decide, by decide⟩

/-- C5 (amended): for every valid stream index, worker_end_field and
worker_end_stream return 0 or -1; when the underlying write reports exactly
-1 the wrapper returns -1 with the worker error slot populated from the
stream, and when the write reports anything other than -1 (including other
non-zero results) the wrapper returns 0 and leaves the worker error slot
unchanged. -/
theorem worker_end_wrappers_fail_on_minus_one (w : WorkerDesc) (sn : Int)
    (op2 op3 : StreamOp) (hval : sn < w.num_streams) :
    ((op2 (w.out_streams sn)).1 = -1 →
      (worker_end_field w sn op2).1 = -1 ∧
      (worker_end_field w sn op2).2.error = (op2 (w.out_streams sn)).2.sockErr) ∧
    ((op2 (w.out_streams sn)).1 ≠ -1 →
      (worker_end_field w sn op2).1 = 0 ∧
      (worker_end_field w sn op2).2.error = w.error) ∧
    ((op3 (w.out_streams sn)).1 = -1 →
      (worker_end_stream w sn op3).1 = -1 ∧
      (worker_end_stream w sn op3).2.error = (op3 (w.out_streams sn)).2.sockErr) ∧
    ((op3 (w.out_streams sn)).1 ≠ -1 →
      (worker_end_stream w sn op3).1 = 0 ∧
      (worker_end_stream w sn op3).2.error = w.error) := by
  have hlt : ¬ (w.num_streams ≤ sn) := by omega
  unfold worker_end_field worker_end_stream
  rw [if_neg hlt, if_neg hlt]
  simp only [end_field_body, end_stream_body]
  refine ⟨fun h => ?_, fun h => ?_, fun h => ?_, fun h => ?_⟩
  · rw [if_pos h]; exact ⟨rfl, rfl⟩
  · rw [if_neg h]; exact ⟨rfl, rfl⟩
  · rw [if_pos h]; exact ⟨rfl, rfl⟩
  · rw [if_neg h]; exact ⟨rfl, rfl⟩

/-- C5 witness: the amended theorem applied at a concrete worker, with one
write oracle reporting -1 and one reporting 2. -/
theorem worker_end_wrappers_fail_on_minus_one_witness :
    (0 : Int) < demoWorker.num_streams ∧
    (((opFail (demoWorker.out_streams 0)).1 = -1 →
       (worker_end_field demoWorker 0 opFail).1 = -1 ∧
       (worker_end_field demoWorker 0 opFail).2.error = (opFail (demoWorker.out_streams 0)).2.sockErr) ∧
     ((opFail (demoWorker.out_streams 0)).1 ≠ -1 →
       (worker_end_field demoWorker 0 opFail).1 = 0 ∧
       (worker_end_field demoWorker 0 opFail).2.error = demoWorker.error) ∧
     ((opTwo (demoWorker.out_streams 0)).1 = -1 →
       (worker_end_stream demoWorker 0 opTwo).1 = -1 ∧
       (worker_end_stream demoWorker 0 opTwo).2.error = (opTwo (demoWorker.out_streams 0)).2.sockErr) ∧
     ((opTwo (demoWorker.out_streams 0)).1 ≠ -1 →
       (worker_end_stream demoWorker 0 opTwo).1 = 0 ∧
       (worker_end_stream demoWorker 0 opTwo).2.error = demoWorker.error)) :=
  ⟨by decide, worker_end_wrappers_fail_on_minus_one demoWorker 0 opFail opTwo (by decide)⟩

/-- C6: on every path through run_tgs_pass (pass success or pass failure,
stream error captured or not), the trace of lifecycle calls contains the
pass-descriptor destruction and the term destruction exactly once each, as
well as their constructions. -/
theorem run_tgs_pass_cleanup_exactly_once (w : WorkerDesc) (sn : Int)
    (execPass : StreamOp) :
    (run_tgs_pass w sn execPass).2.2.count TgsEvent.tgsDestroy = 1 ∧
    (run_tgs_pass w sn execPass).2.2.count TgsEvent.termDestroy = 1 ∧
    (run_tgs_pass w sn execPass).2.2.count TgsEvent.tgsInit = 1 ∧
    (run_tgs_pass w sn execPass).2.2.count TgsEvent.termInit = 1 := by
  simp only [run_tgs_pass]
  split
  · exact ⟨by decide, by decide, by decide, by decide⟩
  · exact ⟨by decide, by decide, by decide, by decide⟩

/-- C7: the key-codec ordering on serialized 64-bit integer keys agrees
with native signed comparison for every pair of in-range values, and the
all-ones pattern decodes to -1, which compares less than the decoded
all-zeros pattern 0. -/
theorem btree_long_order_matches_signed (a b : Int)
    (ha1 : -(2 ^ 63) ≤ a) (ha2 : a < 2 ^ 63)
    (hb1 : -(2 ^ 63) ≤ b) (hb2 : b < 2 ^ 63) :
    (BtreeLong.lt { _begin := encodeI64 a } { _begin := encodeI64 b } = true ↔ a < b) ∧
    decodeI64 (List.replicate 8 255) = -1 ∧
    decodeI64 (List.replicate 8 0) = 0 ∧
    BtreeLong.lt { _begin := List.replicate 8 255 } { _begin := List.replicate 8 0 } = true := by
  refine ⟨?_, by decide, by decide, by decide⟩
  unfold BtreeLong.lt BtreeLong.val
  rw [decodeI64_encodeI64 a ha1 ha2, decodeI64_encodeI64 b hb1 hb2]
  simp

/-- C7 witness: the ordering theorem applied at the pair (-1, 0). -/
theorem btree_long_order_matches_signed_witness :
    (-(2 ^ 63) ≤ (-1 : Int) ∧ (-1 : Int) < 2 ^ 63 ∧
     -(2 ^ 63) ≤ (0 : Int) ∧ (0 : Int) < 2 ^ 63) ∧
    ((BtreeLong.lt { _begin := encodeI64 (-1) } { _begin := encodeI64 0 } = true ↔
        (-1 : Int) < 0) ∧
     decodeI64 (List.replicate 8 255) = -1 ∧
     decodeI64 (List.replicate 8 0) = 0 ∧
     BtreeLong.lt { _begin := List.replicate 8 255 } { _begin := List.replicate 8 0 } = true) :=
  ⟨⟨by norm_num, by norm_num, by norm_num, by norm_num⟩,
   btree_long_order_matches_signed (-1) 0 (by norm_num) (by norm_num)
     (by norm_num) (by norm_num)⟩

/-- C8: for every group count G, stat count S, flag and sample table,
session_init stores G, S and the flag; builds the group-stats table with
exactly G rows, the sample layout and zeroed cells; builds the scratch
buffer with the same layout at the fixed prefetch capacity 64; allocates the
ring buffer at fixed capacity 64; and allocates the zero-initialized
dirty-group array of length G. -/
theorem session_init_builds_buffers (G S : Nat) (flag : Int)
    (sample : PackedTable) :
    (session_init G S flag sample).num_groups = G ∧
    (session_init G S flag sample).num_stats = S ∧
    (session_init G S flag sample).only_binary_metrics = flag ∧
    (session_init G S flag sample).grp_stats.n_rows = G ∧
    (session_init G S flag sample).grp_stats.layout = sample.layout ∧
    (session_init G S flag sample).grp_stats.cells =
      List.replicate G (List.replicate sample.layout.length 0) ∧
    (session_init G S flag sample).temp_buf.layout = sample.layout ∧
    (session_init G S flag sample).temp_buf.n_rows = PREFETCH_BUFFER_SIZE ∧
    PREFETCH_BUFFER_SIZE = 64 ∧
    (session_init G S flag sample).grp_buf =
      circular_buffer_int_alloc CIRC_BUFFER_SIZE ∧
    (session_init G S flag sample).grp_buf.capacity = 64 ∧
    (session_init G S flag sample).nz_grps_buf = List.replicate G 0 :=
  ⟨rfl, rfl, rfl, rfl, rfl, rfl, rfl, rfl, rfl, rfl, rfl, rfl⟩

/-- C9: run_tgs_pass validates nothing about its stream index: its result is
the executor result, it operates on the out_streams entry at stream_num
unconditionally, and its entire observable outcome (result, error slot,
streams, trace) is unchanged when the worker stream count is replaced by any
other value, so an out-of-range or negative index is never rejected with an
invalid-index error. -/
theorem run_tgs_pass_no_index_validation (w : WorkerDesc) (sn n' : Int)
    (execPass : StreamOp) :
    (run_tgs_pass w sn execPass).1 = (execPass (w.out_streams sn)).1 ∧
    (run_tgs_pass w sn execPass).2.1.out_streams sn = (execPass (w.out_streams sn)).2 ∧
    (run_tgs_pass { w with num_streams := n' } sn execPass).1 =
      (run_tgs_pass w sn execPass).1 ∧
    (run_tgs_pass { w with num_streams := n' } sn execPass).2.1.error =
      (run_tgs_pass w sn execPass).2.1.error ∧
    (run_tgs_pass { w with num_streams := n' } sn execPass).2.1.out_streams =
      (run_tgs_pass w sn execPass).2.1.out_streams ∧
    (run_tgs_pass { w with num_streams := n' } sn execPass).2.2 =
      (run_tgs_pass w sn execPass).2.2 := by
  refine ⟨?_, ?_, rfl, ?_, ?_, rfl⟩
  · rfl
  · simp only [run_tgs_pass]
    split <;> simp [updStream]
  · simp only [run_tgs_pass]
    split <;> rfl
  · simp only [run_tgs_pass]
    split <;> rfl

/-- C10: the wrapper validation rejects only stream_num at or beyond
num_streams; for every negative stream_num (on a worker with a non-negative
stream count) the check passes and each wrapper proceeds to its delegating
body, which indexes the stream array with the negative index, instead of
failing with the invalid-index error. -/
theorem worker_wrappers_negative_index_not_rejected (w : WorkerDesc)
    (fn : String) (len tt sn : Int)
    (op1 : FtgsOutstream → String → Int → Int → Int × FtgsOutstream)
    (op2 op3 : StreamOp) (hneg : sn < 0) (hns : 0 ≤ w.num_streams) :
    worker_start_field w fn len tt sn op1 = start_field_body w fn len tt sn op1 ∧
    worker_end_field w sn op2 = end_field_body w sn op2 ∧
    worker_end_stream w sn op3 = end_stream_body w sn op3 ∧
    ((op2 (w.out_streams sn)).1 ≠ -1 →
      (worker_end_field w sn op2).2.out_streams sn = (op2 (w.out_streams sn)).2) := by
  have hlt : ¬ (w.num_streams ≤ sn) := by omega
  refine ⟨?_, ?_, ?_, ?_⟩
  · unfold worker_start_field; rw [if_neg hlt]
  · unfold worker_end_field; rw [if_neg hlt]
  · unfold worker_end_stream; rw [if_neg hlt]
  · intro hop
    unfold worker_end_field
    rw [if_neg hlt]
    simp only [end_field_body]
    rw [if_neg hop]
    simp [updStream]

/-- C10 witness: the negative-index theorem applied at a concrete worker
and index -1. -/
theorem worker_wrappers_negative_index_not_rejected_witness :
    ((-1 : Int) < 0 ∧ (0 : Int) ≤ demoWorker.num_streams) ∧
    (worker_start_field demoWorker "f" 1 0 (-1) opNoop4 = start_field_body demoWorker "f" 1 0 (-1) opNoop4 ∧
     worker_end_field demoWorker (-1) opWriteOk = end_field_body demoWorker (-1) opWriteOk ∧
     worker_end_stream demoWorker (-1) opNoop = end_stream_body demoWorker (-1) opNoop ∧
     ((opWriteOk (demoWorker.out_streams (-1))).1 ≠ -1 →
       (worker_end_field demoWorker (-1) opWriteOk).2.out_streams (-1) =
         (opWriteOk (demoWorker.out_streams (-1))).2)) :=
  ⟨⟨by norm_num, by decide⟩,
   worker_wrappers_negative_index_not_rejected demoWorker "f" 1 0 (-1) opNoop4
     opWriteOk opNoop (by norm_num) (by decide)⟩
